import Mathlib

/-!
Shallow embedding of `src/databases.ts` (database selection state for a
sidebar tree view): `DatabaseItem` construction/validation,
`DatabaseTreeDataProvider` selection state, and the `DatabaseManager`
façade with its persisted `currentDatabase` workspace-state key.

Paths are modelled as strings.  `path.join` of node joins with a single
separator (collapsing a trailing separator on the left component), and
`path.basename` returns the final path segment (ignoring one trailing
separator); both are modelled below.  Object identity (the TypeScript
reference semantics the provider relies on for `current`) is modelled by
tagging every constructed `DatabaseItem` with a fresh allocation id.

The asynchronous `srcRoot` resolution (`fs.exists` callback) is not part
of the synchronous state the claims concern and is left out of the item
record; all other fields of the source are embedded.
-/

namespace Databases

/-- Model of JS `String.prototype.startsWith` by character lists (the
core library version does not reduce in the kernel). -/
def strStartsWith (s pre : String) : Bool :=
  pre.toList.isPrefixOf s.toList

/-- Whether a path ends in a separator. -/
def endsWithSlash (s : String) : Bool :=
  match s.toList.getLast? with
  | some c => c = '/'
  | none => false

/-- Remove one trailing separator, as node `path.join` and
`path.basename` normalize it away. -/
def stripTrailingSlash (s : String) : String :=
  if endsWithSlash s then String.mk s.toList.dropLast else s

/-- Node `path.join a b`: joins with exactly one separator, collapsing a
trailing separator on `a`. -/
def pathJoin (a b : String) : String :=
  stripTrailingSlash a ++ "/" ++ b

/-- Characters of the final path segment: reset the accumulator at each
separator. -/
def lastSegment : List Char → List Char → List Char
  | [], acc => acc.reverse
  | c :: cs, acc => if c = '/' then lastSegment cs [] else lastSegment cs (c :: acc)

/-- Node `path.basename`: final segment of the path, ignoring one
trailing separator. -/
def basename (p : String) : String :=
  String.mk (lastSegment (stripTrailingSlash p).toList [])

/-- Model of `vscode.Uri`: a scheme together with a filesystem path. -/
structure Uri where
  scheme : String
  fsPath : String
deriving DecidableEq

/-- Model of `vscode.Uri.file`: a file-scheme uri for the given path. -/
def Uri.file (p : String) : Uri := ⟨"file", p⟩

/-- Model of the filesystem as seen through `fs.readdirSync`: the list of
immediate children names of each directory path. -/
def FileSys : Type := String → List String

/-- Embedding of `DatabaseItem.findDb`: list the immediate children of the
snapshot directory and keep those whose name starts with the literal
`db-` (`files.forEach` pushing matches preserves listing order, i.e. it
is a filter). -/
def findDb (fs : FileSys) (uri : Uri) : List String :=
  (fs uri.fsPath).filter (fun file => strStartsWith file "db-")

/-- Embedding of the fields of `DatabaseItem` (minus the asynchronously
resolved `srcRoot`). -/
structure DatabaseItem where
  snapshotUri : Uri
  dbUri : Uri
  name : String
deriving DecidableEq

/-- The message of the `NoDatabaseError` thrown by the `DatabaseItem`
constructor. -/
def noDatabaseMessage (uri : Uri) : String :=
  uri.fsPath ++ " doesn't appear to be a valid snapshot directory."

/-- The warning shown when a snapshot directory holds several `db-`
children. -/
def multipleDbMessage (dbAbsolutePath : String) : String :=
  "Found multiple database directories in snapshot, using " ++ dbAbsolutePath

/-- Embedding of the `DatabaseItem` constructor: validation by directory
listing.  Returns the constructed item together with the warnings shown
(`showWarningMessage`), or the `NoDatabaseError` message when no `db-`
child exists. -/
def mkDatabaseItem (fs : FileSys) (uri : Uri) :
    Except String (DatabaseItem × List String) :=
  match findDb fs uri with
  | [] => .error (noDatabaseMessage uri)
  | dbRel0 :: dbRelRest =>
      let dbAbsolutePath := pathJoin uri.fsPath dbRel0
      let warnings := if dbRelRest.length > 0 then [multipleDbMessage dbAbsolutePath] else []
      .ok ({ snapshotUri := uri
             dbUri := Uri.file dbAbsolutePath
             name := basename uri.fsPath }, warnings)

/-- A `DatabaseItem` together with its allocation identity: two structurally
equal items constructed separately carry distinct ids, modelling
TypeScript reference equality. -/
structure RefItem where
  id : Nat
  item : DatabaseItem
deriving DecidableEq

/-- State of `DatabaseTreeDataProvider`: the item list, the current
selection (a reference), the allocation counter, the number of change
notifications fired, and the user-visible error and warning messages
shown so far. -/
structure ProviderState where
  databases : List RefItem
  current : Option RefItem
  nextId : Nat
  fires : Nat
  errors : List String
  warnings : List String
deriving DecidableEq

/-- Embedding of `DatabaseTreeDataProvider.getCurrent`. -/
def getCurrent (s : ProviderState) : Option RefItem := s.current

/-- Embedding of `DatabaseTreeDataProvider.getChildren`: the stored list at
the root, nothing below an item. -/
def getChildren (s : ProviderState) : Option RefItem → List RefItem
  | none => s.databases
  | some _ => []

/-- Embedding of `DatabaseTreeDataProvider.setCurrentItem`: set `current`
and fire one change notification. -/
def setCurrentItem (s : ProviderState) (item : RefItem) : ProviderState :=
  { s with current := some item, fires := s.fires + 1 }

/-- Embedding of `DatabaseTreeDataProvider.setCurrentUri`: construct an
item from the uri; on `NoDatabaseError` show the message and return;
otherwise look for an existing entry with
`it.dbUri.fsPath == dir.fsPath` (as written in the source: the existing
entries' database path against the argument directory path), appending
and selecting the new item when none matches, selecting the found entry
otherwise. -/
def setCurrentUri (fs : FileSys) (s : ProviderState) (dir : Uri) : ProviderState :=
  match mkDatabaseItem fs dir with
  | .error msg => { s with errors := s.errors ++ [msg] }
  | .ok (item, ws) =>
      match s.databases.find? (fun it => it.item.dbUri.fsPath == dir.fsPath) with
      | none =>
          setCurrentItem
            { s with
              nextId := s.nextId + 1
              warnings := s.warnings ++ ws
              databases := s.databases ++ [⟨s.nextId, item⟩] }
            ⟨s.nextId, item⟩
      | some found =>
          setCurrentItem
            { s with nextId := s.nextId + 1, warnings := s.warnings ++ ws }
            found

/-- The error thrown by `DatabaseManager.setCurrentDatabase` on a non-file
uri scheme. -/
inductive SchemeError where
  | unsupported (scheme : String)
deriving DecidableEq

/-- State of `DatabaseManager`: its tree data provider state and the
persisted `currentDatabase` workspace-state entry. -/
structure ManagerState where
  provider : ProviderState
  persisted : Option String
deriving DecidableEq

/-- Embedding of the `DatabaseManager` constructor: read the persisted
path; when present, try to construct an item from it — on
`NoDatabaseError`, show the message and clear the persisted value; the
provider starts with the restored item (if any) both in its list and as
`current`.  Construction does not fire any change notification. -/
def initManager (fs : FileSys) (persisted : Option String) : ManagerState :=
  match persisted with
  | none =>
      { provider := ⟨[], none, 0, 0, [], []⟩, persisted := none }
  | some db =>
      match mkDatabaseItem fs (Uri.file db) with
      | .error msg =>
          { provider := ⟨[], none, 0, 0, [msg], []⟩, persisted := none }
      | .ok (item, ws) =>
          let r : RefItem := ⟨0, item⟩
          { provider := ⟨[r], some r, 1, 0, [], ws⟩, persisted := some db }

/-- Embedding of `DatabaseManager.setCurrentDatabase`: throw
`SchemeError.unsupported` before touching any state when the scheme is
not `file`; otherwise run `setCurrentUri` and then write `db.fsPath` to
the persisted entry unconditionally. -/
def setCurrentDatabase (fs : FileSys) (m : ManagerState) (db : Uri) :
    Except SchemeError ManagerState :=
  if db.scheme ≠ "file" then
    .error (.unsupported db.scheme)
  else
    .ok { provider := setCurrentUri fs m.provider db
          persisted := some db.fsPath }

/-- Embedding of `DatabaseManager.chooseAndSetDatabase`.  The external
folder chooser is a parameter: `chosen` is the uri the user picked, or
`none` on cancel.  Returns the new state together with the value the
function returns (`chosen` itself). -/
def chooseAndSetDatabase (fs : FileSys) (m : ManagerState) (chosen : Option Uri) :
    Except SchemeError (ManagerState × Option Uri) :=
  match chosen with
  | none => .ok (m, none)
  | some u => (setCurrentDatabase fs m u).map (fun m1 => (m1, some u))

/-- Embedding of `DatabaseManager.getDatabaseDir`: when a current item
exists, return its `dbUri` without prompting; otherwise behave as
`chooseAndSetDatabase` with the user's answer `chosen`. -/
def getDatabaseDir (fs : FileSys) (m : ManagerState) (chosen : Option Uri) :
    Except SchemeError (ManagerState × Option Uri) :=
  match getCurrent m.provider with
  | some db => .ok (m, some db.item.dbUri)
  | none => chooseAndSetDatabase fs m chosen

/-- One registry mutation: a `setCurrentUri` call (any argument), or a
`setCurrentItem` call whose argument is a member of the item list (its
stated precondition). -/
inductive ProvStep (fs : FileSys) : ProviderState → ProviderState → Prop where
  | selectOrAdd (s : ProviderState) (dir : Uri) : ProvStep fs s (setCurrentUri fs s dir)
  | setCur (s : ProviderState) (r : RefItem) (h : r ∈ s.databases) :
      ProvStep fs s (setCurrentItem s r)

/-- Provider states reachable from manager initialization by registry
mutations. -/
inductive Reachable (fs : FileSys) : ProviderState → Prop where
  | init (persisted : Option String) : Reachable fs (initManager fs persisted).provider
  | step {s s1 : ProviderState} : Reachable fs s → ProvStep fs s s1 → Reachable fs s1

/-- Fixture: a filesystem with a single valid snapshot directory `/snap`
holding one database child `db-cpp` and a `src` child. -/
def fsSnap : FileSys := fun p => if p = "/snap" then ["db-cpp", "src"] else []

/-- The item constructed from `/snap` over `fsSnap`. -/
def itemSnap : DatabaseItem :=
  ⟨Uri.file "/snap", Uri.file "/snap/db-cpp", "snap"⟩

/-- Fixture: the empty provider state a fresh manager starts from. -/
def emptyProvider : ProviderState := ⟨[], none, 0, 0, [], []⟩

/-- Fixture: a directory `/empty` with children but no `db-` child. -/
def fsEmpty : FileSys := fun p => if p = "/empty" then ["x", "src"] else []

/-- Fixture: a directory `/m` with two `db-` children in listing order
`db-b`, `db-a`. -/
def fsMulti : FileSys := fun p => if p = "/m" then ["db-b", "db-a", "zz"] else []

/-- Fixture: the two snapshot roots `/a` and `/a/` are the same directory
(listing `db-c`); their constructed items resolve to the same database
path `/a/db-c` while the two root paths differ. -/
def fsDup : FileSys := fun p => if p = "/a" ∨ p = "/a/" then ["db-c"] else []

/-- The item constructed from root `/a` over `fsDup`. -/
def itemA : DatabaseItem := ⟨Uri.file "/a", Uri.file "/a/db-c", "a"⟩

/-- The item constructed from root `/a/` over `fsDup`: same database path
as `itemA`, different snapshot root. -/
def itemA2 : DatabaseItem := ⟨Uri.file "/a/", Uri.file "/a/db-c", "a"⟩

/-- The manager state after choosing `/snap` from a fresh manager. -/
def mSnap : ManagerState :=
  { provider := setCurrentUri fsSnap (initManager fsSnap none).provider (Uri.file "/snap")
    persisted := some "/snap" }

/-- The manager state produced by `setCurrentDatabase` on the invalid
directory `/empty` from a fresh manager: state untouched apart from the
error message, but the persisted entry now holds `/empty`. -/
def mEmptyAfter : ManagerState :=
  { provider := { emptyProvider with
      errors := ["/empty doesn't appear to be a valid snapshot directory."] }
    persisted := some "/empty" }

end Databases

namespace Databases

/- ## Helper lemmas -/

theorem setCurrentItem_databases (s : ProviderState) (r : RefItem) :
    (setCurrentItem s r).databases = s.databases := rfl

theorem setCurrentItem_current (s : ProviderState) (r : RefItem) :
    (setCurrentItem s r).current = some r := rfl

/-- The selection invariant is established at manager initialization. -/
theorem initManager_current_mem (fs : FileSys) (persisted : Option String)
    (r : RefItem) (hr : (initManager fs persisted).provider.current = some r) :
    r ∈ (initManager fs persisted).provider.databases := by
  cases persisted with
  | none => simp [initManager] at hr
  | some db =>
      rcases hmk : mkDatabaseItem fs (Uri.file db) with msg | pair
      · simp [initManager, hmk] at hr
      · obtain ⟨item, ws⟩ := pair
        simp only [initManager, hmk, Option.some.injEq] at hr ⊢
        simp [← hr]

/-- The selection invariant is preserved by `setCurrentUri`. -/
theorem setCurrentUri_preserves_inv (fs : FileSys) (s : ProviderState) (dir : Uri)
    (h : ∀ r, s.current = some r → r ∈ s.databases) :
    ∀ r, (setCurrentUri fs s dir).current = some r →
      r ∈ (setCurrentUri fs s dir).databases := by
  intro r hr
  rcases hmk : mkDatabaseItem fs dir with msg | pair
  · simp only [setCurrentUri, hmk] at hr ⊢
    exact h r hr
  · obtain ⟨item, ws⟩ := pair
    rcases hf : s.databases.find? (fun it => it.item.dbUri.fsPath == dir.fsPath)
      with _ | found
    · simp only [setCurrentUri, hmk, hf, setCurrentItem, Option.some.injEq] at hr ⊢
      simp [← hr]
    · simp only [setCurrentUri, hmk, hf, setCurrentItem, Option.some.injEq] at hr ⊢
      rw [← hr]
      exact List.mem_of_find?_eq_some hf

/-- A successfully constructed item records the uri it was built from as
its snapshot root. -/
theorem mkDatabaseItem_snapshotUri (fs : FileSys) (uri : Uri)
    (it : DatabaseItem) (ws : List String)
    (h : mkDatabaseItem fs uri = .ok (it, ws)) : it.snapshotUri = uri := by
  rcases hfd : findDb fs uri with _ | ⟨d0, drest⟩
  · simp [mkDatabaseItem, hfd] at h
  · simp only [mkDatabaseItem, hfd, Except.ok.injEq, Prod.mk.injEq] at h
    rw [← h.1]

/- ## Theorems for the claims -/

/-- C7: for every registry state reachable from initialization by
`setCurrentUri` calls and `setCurrentItem` calls whose argument is a
member of `databases`, if `current` is set then it is (reference-)equal
to an element present in `databases`. -/
theorem c7_current_mem_databases (fs : FileSys) (s : ProviderState)
    (h : Reachable fs s) (r : RefItem) (hr : s.current = some r) :
    r ∈ s.databases := by
  induction h generalizing r with
  | init persisted => exact initManager_current_mem fs persisted r hr
  | step hs hstep ih =>
      cases hstep with
      | setCur r0 hmem =>
          rw [setCurrentItem_current, Option.some.injEq] at hr
          rw [setCurrentItem_databases, ← hr]
          exact hmem
      | selectOrAdd dir => exact setCurrentUri_preserves_inv fs _ dir ih r hr

/-- C7 witness: a concrete reachable state (restored from a persisted
`/snap`) where `current` is set, and the theorem places it in
`databases`. -/
theorem c7_witness :
    (⟨0, itemSnap⟩ : RefItem) ∈ (initManager fsSnap (some "/snap")).provider.databases :=
  c7_current_mem_databases fsSnap ((initManager fsSnap (some "/snap")).provider)
    (Reachable.init (some "/snap")) ⟨0, itemSnap⟩ (by decide)

/-- C5: for every directory whose listing holds no child starting with
`db-`, construction fails with the `NoDatabaseError` message
`<dir> doesn't appear to be a valid snapshot directory.`, and a
`setCurrentUri` call on that directory leaves `databases` and `current`
unchanged. -/
theorem c5_no_database_found (fs : FileSys) (s : ProviderState) (dir : Uri)
    (h : ∀ f ∈ fs dir.fsPath, strStartsWith f "db-" = false) :
    mkDatabaseItem fs dir =
      .error (dir.fsPath ++ " doesn't appear to be a valid snapshot directory.") ∧
    (setCurrentUri fs s dir).databases = s.databases ∧
    (setCurrentUri fs s dir).current = s.current := by
  have hfd : findDb fs dir = [] := List.filter_eq_nil_iff.mpr (by simpa using h)
  have hmk : mkDatabaseItem fs dir =
      .error (dir.fsPath ++ " doesn't appear to be a valid snapshot directory.") := by
    simp [mkDatabaseItem, hfd, noDatabaseMessage]
  exact ⟨hmk, by simp [setCurrentUri, hmk], by simp [setCurrentUri, hmk]⟩

/-- C5 witness: the directory `/empty` (children `x`, `src`) fails
construction with the expected message and leaves a fresh provider state
unchanged. -/
theorem c5_witness :
    mkDatabaseItem fsEmpty (Uri.file "/empty") =
      .error ((Uri.file "/empty").fsPath ++
        " doesn't appear to be a valid snapshot directory.") ∧
    (setCurrentUri fsEmpty emptyProvider (Uri.file "/empty")).databases =
      emptyProvider.databases ∧
    (setCurrentUri fsEmpty emptyProvider (Uri.file "/empty")).current =
      emptyProvider.current :=
  c5_no_database_found fsEmpty emptyProvider (Uri.file "/empty") (by decide)

/-- C6: for every directory with at least one `db-` child, construction
succeeds with the database path the join of the directory and the first
matching child in listing order and the display name the last path
segment of the directory; exactly one warning is shown when there is
more than one match and none when there is exactly one. -/
theorem c6_construction_success (fs : FileSys) (dir : Uri)
    (d0 : String) (drest : List String)
    (h : findDb fs dir = d0 :: drest) :
    mkDatabaseItem fs dir =
      .ok (⟨dir, Uri.file (pathJoin dir.fsPath d0), basename dir.fsPath⟩,
        if drest = [] then [] else [multipleDbMessage (pathJoin dir.fsPath d0)]) := by
  cases drest with
  | nil => simp [mkDatabaseItem, h]
  | cons d1 ds => simp [mkDatabaseItem, h]

/-- C6 witness: `/snap` (one match) yields `/snap/db-cpp`, name `snap`
and no warning; `/m` (matches `db-b`, `db-a` in listing order) yields
`/m/db-b`, name `m` and exactly one warning. -/
theorem c6_witness :
    mkDatabaseItem fsSnap (Uri.file "/snap") =
      .ok (⟨Uri.file "/snap", Uri.file (pathJoin (Uri.file "/snap").fsPath "db-cpp"),
            basename (Uri.file "/snap").fsPath⟩, if ([] : List String) = [] then []
            else [multipleDbMessage (pathJoin (Uri.file "/snap").fsPath "db-cpp")]) ∧
    mkDatabaseItem fsMulti (Uri.file "/m") =
      .ok (⟨Uri.file "/m", Uri.file (pathJoin (Uri.file "/m").fsPath "db-b"),
            basename (Uri.file "/m").fsPath⟩, if ["db-a"] = ([] : List String) then []
            else [multipleDbMessage (pathJoin (Uri.file "/m").fsPath "db-b")]) :=
  ⟨c6_construction_success fsSnap (Uri.file "/snap") "db-cpp" [] rfl,
   c6_construction_success fsMulti (Uri.file "/m") "db-b" ["db-a"] rfl⟩

/-- C2 evaluated at its failing input: from a fresh provider,
`setCurrentUri` twice with the same valid root `/snap` leaves two
entries in `databases` (the lookup compares each existing entry's
database path `/snap/db-cpp` against the argument `/snap`, so it never
matches), with `current` at the second copy — against the claimed
idempotence and the constructor doc comment promising reuse. -/
theorem c2_idempotence_fails :
    (setCurrentUri fsSnap (setCurrentUri fsSnap emptyProvider (Uri.file "/snap"))
      (Uri.file "/snap")).databases = [⟨0, itemSnap⟩, ⟨1, itemSnap⟩] ∧
    (setCurrentUri fsSnap (setCurrentUri fsSnap emptyProvider (Uri.file "/snap"))
      (Uri.file "/snap")).current = some ⟨1, itemSnap⟩ := by
  constructor <;> rfl

/-- C1 counterexample: the roots `/a` and `/a/` are different paths whose
constructed items resolve to the same database path `/a/db-c`, yet the
two `setCurrentUri` calls leave two entries in `databases`, because the
lookup compares each existing entry's database path against the argument
root, not against the new item's database path. -/
theorem c1_counterexample :
    Uri.file "/a" ≠ Uri.file "/a/" ∧
    mkDatabaseItem fsDup (Uri.file "/a") = .ok (itemA, []) ∧
    mkDatabaseItem fsDup (Uri.file "/a/") = .ok (itemA2, []) ∧
    itemA.dbUri = itemA2.dbUri ∧
    (setCurrentUri fsDup (setCurrentUri fsDup emptyProvider (Uri.file "/a"))
      (Uri.file "/a/")).databases = [⟨0, itemA⟩, ⟨1, itemA2⟩] :=
  ⟨by decide, rfl, rfl, rfl, rfl⟩

/-- C1 amended: the lookup compares the existing entries' database path
against the argument root path, so for two different roots with the same
resolved database path (the path equal to no present or new entry's
database path), the second call appends a second item: `databases` grows
by two entries and `current` points to the second of them. -/
theorem c1_amended (fs : FileSys) (s : ProviderState) (d1 d2 : Uri)
    (it1 it2 : DatabaseItem) (w1 w2 : List String)
    (_hne : d1 ≠ d2)
    (h1 : mkDatabaseItem fs d1 = .ok (it1, w1))
    (h2 : mkDatabaseItem fs d2 = .ok (it2, w2))
    (_hdb : it1.dbUri = it2.dbUri)
    (h3 : ∀ r ∈ s.databases,
      r.item.dbUri.fsPath ≠ d1.fsPath ∧ r.item.dbUri.fsPath ≠ d2.fsPath)
    (h4 : it1.dbUri.fsPath ≠ d2.fsPath) :
    (setCurrentUri fs (setCurrentUri fs s d1) d2).databases
        = s.databases ++ [⟨s.nextId, it1⟩, ⟨s.nextId + 1, it2⟩] ∧
    (setCurrentUri fs (setCurrentUri fs s d1) d2).current
        = some ⟨s.nextId + 1, it2⟩ := by
  have hf1 : List.find? (fun it => it.item.dbUri.fsPath == d1.fsPath) s.databases
      = none := by
    rw [List.find?_eq_none]
    intro x hx
    simpa using (h3 x hx).1
  have hf2 : List.find? (fun it => it.item.dbUri.fsPath == d2.fsPath)
      (s.databases ++ [(⟨s.nextId, it1⟩ : RefItem)]) = none := by
    rw [List.find?_eq_none]
    intro x hx
    rcases List.mem_append.mp hx with hx | hx
    · simpa using (h3 x hx).2
    · simp only [List.mem_singleton] at hx
      subst hx
      simpa using h4
  constructor <;>
    simp [setCurrentUri, h1, h2, hf1, hf2, setCurrentItem]

/-- C1 amended witness: over `fsDup`, the calls on `/a` then `/a/` from a
fresh provider leave the two items with ids 0 and 1, current at id 1. -/
theorem c1_amended_witness :
    (setCurrentUri fsDup (setCurrentUri fsDup emptyProvider (Uri.file "/a"))
      (Uri.file "/a/")).databases
        = emptyProvider.databases ++
          [⟨emptyProvider.nextId, itemA⟩, ⟨emptyProvider.nextId + 1, itemA2⟩] ∧
    (setCurrentUri fsDup (setCurrentUri fsDup emptyProvider (Uri.file "/a"))
      (Uri.file "/a/")).current = some ⟨emptyProvider.nextId + 1, itemA2⟩ :=
  c1_amended fsDup emptyProvider (Uri.file "/a") (Uri.file "/a/") itemA itemA2 [] []
    (by decide) rfl rfl rfl (by decide) (by decide)

/-- C3 evaluated at its failing input: with no current selection and the
user choosing `/snap`, `getDatabaseDir` (hence `chooseAndSetDatabase`)
returns the chosen snapshot root `/snap`, not the resolved database path
`/snap/db-cpp` of the newly current item — while the branch with a
current selection returns that item's database path. -/
theorem c3_returns_snapshot_root :
    getDatabaseDir fsSnap (initManager fsSnap none) (some (Uri.file "/snap"))
      = .ok (mSnap, some (Uri.file "/snap")) ∧
    mSnap.provider.current = some ⟨0, itemSnap⟩ ∧
    itemSnap.dbUri = Uri.file "/snap/db-cpp" ∧
    Uri.file "/snap" ≠ Uri.file "/snap/db-cpp" ∧
    getDatabaseDir fsSnap mSnap none = .ok (mSnap, some (Uri.file "/snap/db-cpp")) :=
  ⟨rfl, rfl, rfl, by decide, rfl⟩

/-- C4 counterexample: from a fresh manager with no persisted value,
`setCurrentDatabase` on the invalid directory `/empty` leaves `databases`
and `current` unchanged but still writes `/empty` to the persisted
entry. -/
theorem c4_counterexample :
    (initManager fsEmpty none).persisted = none ∧
    setCurrentDatabase fsEmpty (initManager fsEmpty none) (Uri.file "/empty")
      = .ok mEmptyAfter ∧
    mEmptyAfter.persisted = some "/empty" ∧
    mEmptyAfter.provider.databases = (initManager fsEmpty none).provider.databases ∧
    mEmptyAfter.provider.current = (initManager fsEmpty none).provider.current :=
  ⟨rfl, rfl, rfl, rfl, rfl⟩

/-- C4 amended: the persisted entry is written on every
`setCurrentDatabase` call that passes the scheme check, even when
validation fails: for a file-scheme path with no `db-` child, the call
leaves `databases` and `current` unchanged (only the error message is
recorded) but writes the failing path to the persisted entry. -/
theorem c4_amended (fs : FileSys) (m : ManagerState) (db : Uri)
    (hscheme : db.scheme = "file")
    (hfail : ∀ f ∈ fs db.fsPath, strStartsWith f "db-" = false) :
    setCurrentDatabase fs m db =
      .ok { provider := { m.provider with
              errors := m.provider.errors ++ [noDatabaseMessage db] }
            persisted := some db.fsPath } := by
  have hfd : findDb fs db = [] := List.filter_eq_nil_iff.mpr (by simpa using hfail)
  simp [setCurrentDatabase, hscheme, setCurrentUri, mkDatabaseItem, hfd]

/-- C4 amended witness: the `/empty` call writes `/empty` to the persisted
entry while touching only the error log. -/
theorem c4_witness :
    setCurrentDatabase fsEmpty (initManager fsEmpty none) (Uri.file "/empty") =
      .ok { provider := { (initManager fsEmpty none).provider with
              errors := (initManager fsEmpty none).provider.errors ++
                [noDatabaseMessage (Uri.file "/empty")] }
            persisted := some (Uri.file "/empty").fsPath } :=
  c4_amended fsEmpty (initManager fsEmpty none) (Uri.file "/empty") rfl (by decide)

/-- C8: when the chosen root `D` validates, `chooseAndSetDatabase`
persists `D`, and a manager re-initialized from that persisted value
(over a filesystem where `D` still validates) starts selected on a
single item whose snapshot root is `D`. -/
theorem c8_persistence_roundtrip (fs fs2 : FileSys) (m : ManagerState) (D : String)
    (it it2 : DatabaseItem) (ws ws2 : List String)
    (_hok : mkDatabaseItem fs (Uri.file D) = .ok (it, ws))
    (h2 : mkDatabaseItem fs2 (Uri.file D) = .ok (it2, ws2)) :
    chooseAndSetDatabase fs m (some (Uri.file D)) =
      .ok ({ provider := setCurrentUri fs m.provider (Uri.file D)
             persisted := some D }, some (Uri.file D)) ∧
    (initManager fs2 (some D)).provider.current = some ⟨0, it2⟩ ∧
    (initManager fs2 (some D)).provider.databases = [⟨0, it2⟩] ∧
    it2.snapshotUri = Uri.file D := by
  refine ⟨?_, ?_, ?_, mkDatabaseItem_snapshotUri fs2 (Uri.file D) it2 ws2 h2⟩
  · simp [chooseAndSetDatabase, setCurrentDatabase, Uri.file, Except.map]
  · simp [initManager, h2]
  · simp [initManager, h2]

/-- C8 witness: choosing `/snap`, then re-initializing from the persisted
value, restores a single-item registry selected on an item rooted at
`/snap`. -/
theorem c8_witness :
    chooseAndSetDatabase fsSnap (initManager fsSnap none) (some (Uri.file "/snap")) =
      .ok ({ provider := setCurrentUri fsSnap
               (initManager fsSnap none).provider (Uri.file "/snap")
             persisted := some "/snap" }, some (Uri.file "/snap")) ∧
    (initManager fsSnap (some "/snap")).provider.current = some ⟨0, itemSnap⟩ ∧
    (initManager fsSnap (some "/snap")).provider.databases = [⟨0, itemSnap⟩] ∧
    itemSnap.snapshotUri = Uri.file "/snap" :=
  c8_persistence_roundtrip fsSnap fsSnap (initManager fsSnap none) "/snap"
    itemSnap itemSnap [] [] rfl rfl

/-- C9: `setCurrentDatabase` throws `SchemeError.unsupported` exactly when
the scheme is not `file`; on a file path it returns the mutated state, and
the error is thrown before any state is produced. -/
theorem c9_unsupported_scheme (fs : FileSys) (m : ManagerState) (db : Uri) :
    (db.scheme ≠ "file" →
      setCurrentDatabase fs m db = .error (.unsupported db.scheme)) ∧
    (db.scheme = "file" →
      setCurrentDatabase fs m db =
        .ok { provider := setCurrentUri fs m.provider db
              persisted := some db.fsPath }) := by
  constructor <;> intro h <;> simp [setCurrentDatabase, h]

/-- C9 witness: an `http` uri is rejected with the unsupported-scheme
error, and the same path under the `file` scheme goes through. -/
theorem c9_witness :
    (setCurrentDatabase fsSnap (initManager fsSnap none) ⟨"http", "/snap"⟩ =
      .error (.unsupported "http")) ∧
    (setCurrentDatabase fsSnap (initManager fsSnap none) (Uri.file "/snap") =
      .ok { provider := setCurrentUri fsSnap
              (initManager fsSnap none).provider (Uri.file "/snap")
            persisted := some "/snap" }) :=
  ⟨(c9_unsupported_scheme fsSnap (initManager fsSnap none) ⟨"http", "/snap"⟩).1
      (by decide),
   (c9_unsupported_scheme fsSnap (initManager fsSnap none) (Uri.file "/snap")).2 rfl⟩

/-- C10: a `setCurrentUri` call failing with `NoDatabaseError` fires no
change notification and leaves the selection state untouched, while a
successful call fires exactly one, by ending in `setCurrentItem` on a
state with the old fire count. -/
theorem c10_change_notifications (fs : FileSys) (s : ProviderState) (dir : Uri) :
    (∀ msg, mkDatabaseItem fs dir = .error msg →
      (setCurrentUri fs s dir).fires = s.fires ∧
      (setCurrentUri fs s dir).current = s.current ∧
      (setCurrentUri fs s dir).databases = s.databases) ∧
    (∀ it ws, mkDatabaseItem fs dir = .ok (it, ws) →
      (setCurrentUri fs s dir).fires = s.fires + 1 ∧
      ∃ s1 r, s1.fires = s.fires ∧ setCurrentUri fs s dir = setCurrentItem s1 r) := by
  constructor
  · intro msg hmsg
    refine ⟨?_, ?_, ?_⟩ <;> simp [setCurrentUri, hmsg]
  · intro it ws hok
    rcases hf : List.find? (fun x => x.item.dbUri.fsPath == dir.fsPath) s.databases
      with _ | found
    · exact ⟨by simp [setCurrentUri, hok, hf, setCurrentItem],
        ⟨{ s with
            nextId := s.nextId + 1
            warnings := s.warnings ++ ws
            databases := s.databases ++ [⟨s.nextId, it⟩] }, ⟨s.nextId, it⟩, rfl,
          by simp [setCurrentUri, hok, hf]⟩⟩
    · exact ⟨by simp [setCurrentUri, hok, hf, setCurrentItem],
        ⟨{ s with
            nextId := s.nextId + 1
            warnings := s.warnings ++ ws }, found, rfl,
          by simp [setCurrentUri, hok, hf]⟩⟩

/-- C10 witness: the failing call on `/empty` leaves the fire count at 0
with unchanged state; the successful call on `/snap` fires once. -/
theorem c10_witness :
    ((setCurrentUri fsEmpty emptyProvider (Uri.file "/empty")).fires
        = emptyProvider.fires ∧
      (setCurrentUri fsEmpty emptyProvider (Uri.file "/empty")).current
        = emptyProvider.current ∧
      (setCurrentUri fsEmpty emptyProvider (Uri.file "/empty")).databases
        = emptyProvider.databases) ∧
    ((setCurrentUri fsSnap emptyProvider (Uri.file "/snap")).fires
        = emptyProvider.fires + 1 ∧
      ∃ s1 r, s1.fires = emptyProvider.fires ∧
        setCurrentUri fsSnap emptyProvider (Uri.file "/snap") = setCurrentItem s1 r) :=
  ⟨(c10_change_notifications fsEmpty emptyProvider (Uri.file "/empty")).1
      (noDatabaseMessage (Uri.file "/empty")) rfl,
   (c10_change_notifications fsSnap emptyProvider (Uri.file "/snap")).2
      itemSnap [] rfl⟩

end Databases
